import Mathlib

/-!
Shallow embedding of the message-routing and scheduled-summarization core of
the `wa_llm` repository, together with proofs checking the natural-language
specification against it.

Conventions of the embedding:
* timestamps are `Nat` (a totally ordered clock);
* remote collaborators (language model, transport sends, persistence) are
  modelled by explicit parameters for their outcomes, and every interaction
  the code performs is recorded in an explicit `Effect` trace;
* Python exceptions are modelled with `Except` / explicit outcome sums;
* the SQL queries are modelled as filter / sort / take over an in-memory
  list of rows, mirroring the `where`, `order_by` and `limit` clauses.
-/

deriving instance DecidableEq for Except

namespace WaLLM

/-- The closed intent enumeration `IntentEnum` from `handler/router.py`. -/
inductive IntentEnum where
  | summarize
  | ask_question
  | about
  | other
deriving DecidableEq, Repr

/-- The `Message` row as used by the two summarization paths: chat and group
identifiers, sender, optional text, timestamp, message identifier. -/
structure Message where
  message_id : String
  chat_jid : String
  group_jid : String
  sender_jid : String
  text : Option String
  timestamp : Nat
deriving DecidableEq, Repr

/-- The `Group` row fields read and written by the scheduled path. -/
structure Group where
  group_jid : String
  group_name : Option String
  managed : Bool
  last_summary_sync : Nat
deriving DecidableEq, Repr

/-- Logging levels of the Python `logging` module used by the code. -/
inductive LogLevel where
  | debug
  | info
  | warning
  | error
deriving DecidableEq, Repr

/-- One observable interaction of the code with a collaborator: transport
calls, persistence calls, language-model calls, and log records.  Each
constructor corresponds to one `await`ed call or logging statement in the
source. -/
inductive Effect where
  | getMyJid
  | queryMessages
  | modelCall
  | send (dest : String) (text : String) (replyTo : Option String)
  | fetchCommunityGroups
  | commit (newSync : Nat)
  | log (lvl : LogLevel) (tag : String)
deriving DecidableEq, Repr

/-- `startsWithSeq pat s` is true when `pat` is a prefix of `s`
(character lists). -/
def startsWithSeq : List Char → List Char → Bool
  | [], _ => true
  | _ :: _, [] => false
  | p :: ps, c :: cs => p == c && startsWithSeq ps cs

/-- `containsSeq pat s` embeds the Python `in` operator on strings: true
when `pat` occurs contiguously inside `s`. -/
def containsSeq (pat : List Char) : List Char → Bool
  | [] => pat.isEmpty
  | c :: cs => startsWithSeq pat (c :: cs) || containsSeq pat cs

/-- Character-list embedding of the Python `str.lower()` call. -/
def toLowerSeq (s : List Char) : List Char := s.map Char.toLower

/-- The content-moderation test used at every `ModelHTTPError` handler in the
source: case-insensitive substring match of a content-filter or
responsible-AI-policy marker in the error body. -/
def isContentFiltered (body : String) : Bool :=
  containsSeq "content_filter".toList (toLowerSeq body.toList) ||
    containsSeq "responsibleaipolicyviolation".toList (toLowerSeq body.toList)

/-- Outcome of one `await agent.run(...)` call: success with an output of
type `A`, a `ModelHTTPError` carrying its body, or any other exception. -/
inductive AgentOutcome (A : Type) where
  | ok (a : A)
  | modelHTTPError (body : String)
  | otherExc (msg : String)
deriving DecidableEq, Repr

/-- Embedding of `Router._route`: given the outcome of the single agent run,
return either the routed intent or the propagated exception body, together
with the log records.  Mirrors the `try/except ModelHTTPError/except
Exception` structure of the source: a content-filtered HTTP error resolves to
`other`, a non-filtered HTTP error is logged at error level and re-raised, and
any other exception is logged at error level and resolves to `other`. -/
def Router.route (outcome : AgentOutcome IntentEnum) :
    Except String IntentEnum × List Effect :=
  match outcome with
  | AgentOutcome.ok i => (Except.ok i, [])
  | AgentOutcome.modelHTTPError body =>
    if isContentFiltered body then
      (Except.ok IntentEnum.other,
        [Effect.log LogLevel.warning "content_filtered_routing",
         Effect.log LogLevel.debug "content_filter_details"])
    else
      (Except.error body, [Effect.log LogLevel.error "model_http_error_routing"])
  | AgentOutcome.otherExc _ =>
    (Except.ok IntentEnum.other,
      [Effect.log LogLevel.error "unexpected_error_routing"])

/-- Timestamp-descending order on messages, embedding `order_by(desc(Message.timestamp))`. -/
def tsGE (a b : Message) : Prop := b.timestamp ≤ a.timestamp

instance : DecidableRel tsGE := fun a b => Nat.decLe b.timestamp a.timestamp

instance : IsTotal Message tsGE := ⟨fun a b => Nat.le_total b.timestamp a.timestamp⟩

instance : IsTrans Message tsGE := ⟨fun _ _ _ hab hbc => Nat.le_trans hbc hab⟩

/-- The row filter of the on-demand query in `Router.summarize`: same chat and
timestamp at least `cutoff` (which the caller sets to now minus 24 hours).
The query does not constrain the sender. -/
def onDemandQualifies (cutoff : Nat) (chat : String) (m : Message) : Bool :=
  m.chat_jid == chat && decide (cutoff ≤ m.timestamp)

/-- The on-demand history query: filter by chat and 24h window, order by
timestamp descending, limit 30. -/
def onDemandQuery (db : List Message) (chat : String) (cutoff : Nat) : List Message :=
  (List.insertionSort tsGE (db.filter (onDemandQualifies cutoff chat))).take 30

def noMessagesReply : String := "No messages found from today to summarize."

def contentFilterReply : String :=
  "I\x27m sorry, but I can\x27t summarize today\x27s messages due to content policy restrictions. Some messages may contain content that can\x27t be processed."

def modelErrorReply : String :=
  "I encountered an error while trying to summarize today\x27s messages. Please try again later."

def unexpectedErrorReply : String :=
  "I encountered an unexpected error while summarizing. Please try again later."

/-- Embedding of `Router.summarize` (the on-demand path): query the last-24h
history of the chat (limit 30, newest first); with no qualifying messages send
the fixed no-messages reply threaded to the trigger and stop; otherwise run
the agent once (`Effect.modelCall`) and send the reply dictated by the
`try/except` structure of the source. -/
def Router.summarize (db : List Message) (cutoff : Nat)
    (agentResult : AgentOutcome String) (trigger : Message) : List Effect :=
  let messages := onDemandQuery db trigger.chat_jid cutoff
  if messages.isEmpty then
    [Effect.queryMessages,
     Effect.send trigger.chat_jid noMessagesReply (some trigger.message_id)]
  else
    Effect.queryMessages :: Effect.modelCall ::
      match agentResult with
      | AgentOutcome.ok out =>
        [Effect.send trigger.chat_jid out (some trigger.message_id)]
      | AgentOutcome.modelHTTPError body =>
        if isContentFiltered body then
          [Effect.log LogLevel.warning "content_filtered_summarize",
           Effect.log LogLevel.debug "content_filter_details",
           Effect.send trigger.chat_jid contentFilterReply (some trigger.message_id)]
        else
          [Effect.log LogLevel.error "model_http_error_summarize",
           Effect.send trigger.chat_jid modelErrorReply (some trigger.message_id)]
      | AgentOutcome.otherExc _ =>
        [Effect.log LogLevel.error "unexpected_error_summarize",
         Effect.send trigger.chat_jid unexpectedErrorReply (some trigger.message_id)]

/-- The row filter of the scheduled query in `summarize_and_send_to_group`:
same group, timestamp at least the watermark, sender different from the
identity of the assistant itself. -/
def scheduledQualifies (myJid : String) (g : Group) (m : Message) : Bool :=
  m.group_jid == g.group_jid && decide (g.last_summary_sync ≤ m.timestamp) &&
    m.sender_jid != myJid

/-- The body of the `for cg in community_groups` send loop inside the single
`try` block: sends run in order and the first raising send aborts the rest of
the loop (the exception escapes to the `except` clause).  Returns the send
attempts made and whether the loop finished without an exception. -/
def sendSeq (sendOk : String → Bool) (out : String) :
    List Group → List Effect × Bool
  | [] => ([], true)
  | cg :: rest =>
    if sendOk cg.group_jid then
      let r := sendSeq sendOk out rest
      (Effect.send cg.group_jid out none :: r.1, r.2)
    else
      ([Effect.send cg.group_jid out none], false)

/-- The whole `try/except` delivery block: send to the main group, then fetch
the community groups, then send to each in order; any raising send jumps to
the `except` clause, which logs at error level. -/
def sendPhase (sendOk : String → Bool) (group : Group) (cgs : List Group)
    (out : String) : List Effect :=
  if sendOk group.group_jid then
    let r := sendSeq sendOk out cgs
    Effect.send group.group_jid out none :: Effect.fetchCommunityGroups :: r.1 ++
      (if r.2 then [] else [Effect.log LogLevel.error "error_sending"])
  else
    [Effect.send group.group_jid out none,
     Effect.log LogLevel.error "error_sending"]

/-- Embedding of `summarize_and_send_to_group`.  Parameters model the
collaborators: `myJid` the resolved own identity, `now` the clock at the
watermark update, `db` the message store, `summ` the outcome of the (retried)
`summarize` call, `sendOk` which transport sends succeed, `cgs` the related
community groups.  Returns the updated group row and the effect trace. -/
def summarize_and_send_to_group (myJid : String) (now : Nat) (db : List Message)
    (summ : AgentOutcome String) (sendOk : String → Bool) (cgs : List Group)
    (group : Group) : Group × List Effect :=
  let messages := List.insertionSort tsGE (db.filter (scheduledQualifies myJid group))
  let pre := [Effect.getMyJid, Effect.queryMessages]
  if messages.length < 15 then
    (group, pre ++ [Effect.log LogLevel.info "not_enough_messages"])
  else
    match summ with
    | AgentOutcome.modelHTTPError body =>
      if isContentFiltered body then
        (group, pre ++ [Effect.modelCall,
          Effect.log LogLevel.warning "content_filtered_auto",
          Effect.log LogLevel.debug "content_filter_details"])
      else
        (group, pre ++ [Effect.modelCall,
          Effect.log LogLevel.error "model_http_error_auto"])
    | AgentOutcome.otherExc _ =>
      (group, pre ++ [Effect.modelCall,
        Effect.log LogLevel.error "error_summarizing"])
    | AgentOutcome.ok out =>
      ({ group with last_summary_sync := now },
        pre ++ [Effect.modelCall] ++ sendPhase sendOk group cgs out ++
          [Effect.commit now])

/-- Embedding of `summarize_and_send_to_groups`: query the managed groups,
start one task per managed group, gather all outcomes with exceptions
returned as values (`return_exceptions=True`), and log each collected
exception at error level.  `run` is the per-group workflow, whose unhandled
exceptions surface as `Except.error`. -/
def summarize_and_send_to_groups (run : Group → Except String (Group × List Effect))
    (allGroups : List Group) :
    List (Except String (Group × List Effect)) × List Effect :=
  let managedGroups := allGroups.filter (fun g => g.managed)
  let errs := managedGroups.map run
  (errs, errs.filterMap (fun r =>
    match r with
    | Except.error e => some (Effect.log LogLevel.error e)
    | Except.ok _ => none))

/-- `stop_after_attempt(6)` of the retry decoration on `summarize`. -/
def stopAfterAttempt : Nat := 6

/-- The retry loop of the `tenacity.retry` decoration with `reraise=True`:
`f n` is the outcome of attempt number `n` (starting at 1); `fuel` is the
number of retries still allowed after the current attempt.  Returns the final
outcome and how many attempts were made: the first success is returned at
once, and when the last allowed attempt fails its error is re-raised as is. -/
def retryFrom {E A : Type} (f : Nat → Except E A) : Nat → Nat → Except E A × Nat
  | n, 0 => (f n, 1)
  | n, fuel + 1 =>
    match f n with
    | Except.ok a => (Except.ok a, 1)
    | Except.error _ =>
      let r := retryFrom f (n + 1) fuel
      (r.1, r.2 + 1)

/-- The retried `summarize` call: up to `stopAfterAttempt` attempts. -/
def retrySummarize {E A : Type} (f : Nat → Except E A) : Except E A × Nat :=
  retryFrom f 1 (stopAfterAttempt - 1)

/-- The upper edge of the backoff window of `wait_random_exponential(min=1,
max=30)` before attempt `attempt + 1`: the tenacity formula
`max(max(0, min), min(multiplier * exp_base ** (attempt_number - 1), max))`
with multiplier 1, base 2, min 1, max 30. -/
def waitRandomExponentialHigh (attempt : Nat) : Nat :=
  max (max 0 1) (min (2 ^ (attempt - 1)) 30)

/-- The jittered wait: a uniform draw `r` from `[0, 1]` scaled by the window
upper edge. -/
def waitRandomExponentialDelay (attempt : Nat) (r : ℚ) : ℚ :=
  r * (waitRandomExponentialHigh attempt : ℚ)

/-- `batch_size = 100` of `azure_openai_embed_text`. -/
def batchSize : Nat := 100

/-- Fuel-indexed chunking loop; the fuel only serves structural termination
and is always sufficient when it is at least the list length, since every
round consumes at least one element of a non-empty list. -/
def chunkedFuel {α : Type} : Nat → List α → List (List α)
  | _, [] => []
  | 0, _ :: _ => []
  | fuel + 1, x :: xs =>
    (x :: xs).take batchSize :: chunkedFuel fuel ((x :: xs).drop batchSize)

/-- The batching loop `for i in range(0, len(input), batch_size)` with
`batch = input[i : i + batch_size]`: the contiguous chunks of the input. -/
def chunked {α : Type} (l : List α) : List (List α) := chunkedFuel l.length l

/-- Embedding of `azure_openai_embed_text`: one provider call per chunk
(`create` models `embedding_client.embeddings.create`), results concatenated
in order.  Returns the embeddings and the number of provider calls made. -/
def azure_openai_embed_text {Vec : Type} (create : List String → List Vec)
    (input : List String) : List Vec × Nat :=
  (((chunked input).map create).flatten, (chunked input).length)

/-! ### Concrete fixtures used by witnesses and counterexamples -/

/-- A qualifying message of the fixture group: in the group, after the
watermark, sent by a regular member. -/
def cMsg : Message :=
  { message_id := "m1", chat_jid := "chat@g.us", group_jid := "g@g.us",
    sender_jid := "u1@s", text := some "hi", timestamp := 100 }

/-- The fixture managed group with watermark 50. -/
def cGroup : Group :=
  { group_jid := "g@g.us", group_name := some "G", managed := true,
    last_summary_sync := 50 }

/-- First fixture community group. -/
def cg1 : Group :=
  { group_jid := "c1@g.us", group_name := some "C1", managed := false,
    last_summary_sync := 0 }

/-- Second fixture community group. -/
def cg2 : Group :=
  { group_jid := "c2@g.us", group_name := some "C2", managed := false,
    last_summary_sync := 0 }

/-! ### C1: intent-classifier failure policy -/

/-- C1, counterexample to the claim as stated: for a model failure that is
not content-moderation-classified (a plain HTTP 500 body), `Router._route`
does not return the `other` intent — it propagates the `ModelHTTPError` to
its caller (the explicit `raise` on the non-filtered branch). -/
theorem C1_claim_counterexample :
    isContentFiltered "HTTP 500 internal server error" = false ∧
    (Router.route (AgentOutcome.modelHTTPError "HTTP 500 internal server error")).1 =
      Except.error "HTTP 500 internal server error" :=
  ⟨by decide, by decide⟩

/-- C1, amended: the classifier resolves a content-moderation-classified
model failure to `other` with a warning log, logs at error level and
re-raises a `ModelHTTPError` that is not moderation-classified, and resolves
any other exception to `other` with an error log; on success it returns the
classified intent. -/
theorem C1_route_failure_policy (body msg : String) (i : IntentEnum) :
    Router.route (AgentOutcome.ok i) = (Except.ok i, []) ∧
    (isContentFiltered body = true →
      Router.route (AgentOutcome.modelHTTPError body) =
        (Except.ok IntentEnum.other,
          [Effect.log LogLevel.warning "content_filtered_routing",
           Effect.log LogLevel.debug "content_filter_details"])) ∧
    (isContentFiltered body = false →
      Router.route (AgentOutcome.modelHTTPError body) =
        (Except.error body,
          [Effect.log LogLevel.error "model_http_error_routing"])) ∧
    Router.route (AgentOutcome.otherExc msg) =
      (Except.ok IntentEnum.other,
        [Effect.log LogLevel.error "unexpected_error_routing"]) := by
  refine ⟨rfl, ?_, ?_, rfl⟩ <;> intro h <;> simp [Router.route, h]

/-- C1, witness: the amended theorem applied at a non-moderation body and at
a non-HTTP exception. -/
theorem C1_route_failure_policy_witness :
    Router.route (AgentOutcome.modelHTTPError "boom") =
      (Except.error "boom", [Effect.log LogLevel.error "model_http_error_routing"]) ∧
    Router.route (AgentOutcome.otherExc "oops") =
      (Except.ok IntentEnum.other,
        [Effect.log LogLevel.error "unexpected_error_routing"]) :=
  ⟨(C1_route_failure_policy "boom" "oops" IntentEnum.other).2.2.1 (by decide),
   (C1_route_failure_policy "boom" "oops" IntentEnum.other).2.2.2⟩

/-! ### Helper lemmas about the scheduled engine -/

/-- The community send loop attempts exactly the prefix of groups whose sends
succeed plus the first failing one, and reports success exactly when no send
raised. -/
theorem sendSeq_spec (sendOk : String → Bool) (out : String) (cgs : List Group) :
    (sendSeq sendOk out cgs).1 =
      ((cgs.takeWhile fun cg => sendOk cg.group_jid) ++
        (cgs.dropWhile fun cg => sendOk cg.group_jid).take 1).map
        (fun cg => Effect.send cg.group_jid out none) ∧
    (sendSeq sendOk out cgs).2 =
      (cgs.dropWhile fun cg => sendOk cg.group_jid).isEmpty := by
  induction cgs with
  | nil => simp [sendSeq]
  | cons cg rest ih =>
    cases h : sendOk cg.group_jid
    · simp [sendSeq, h]
    · simp [sendSeq, h, ih.1, ih.2]

/-- Unfolding of the engine on the generation-success branch. -/
theorem engine_ok_eq (myJid : String) (now : Nat) (db : List Message)
    (sendOk : String → Bool) (cgs : List Group) (group : Group) (out : String)
    (h15 : 15 ≤ (db.filter (scheduledQualifies myJid group)).length) :
    summarize_and_send_to_group myJid now db (AgentOutcome.ok out) sendOk cgs group =
      ({ group with last_summary_sync := now },
        [Effect.getMyJid, Effect.queryMessages, Effect.modelCall] ++
          sendPhase sendOk group cgs out ++ [Effect.commit now]) := by
  have h : ¬ (List.insertionSort tsGE
      (db.filter (scheduledQualifies myJid group))).length < 15 := by
    rw [List.length_insertionSort]; omega
  simp [summarize_and_send_to_group, h]
  all_goals omega

/-- Unfolding of the engine on the below-threshold branch. -/
theorem engine_below_threshold_eq (myJid : String) (now : Nat) (db : List Message)
    (summ : AgentOutcome String) (sendOk : String → Bool) (cgs : List Group)
    (group : Group)
    (hlt : (db.filter (scheduledQualifies myJid group)).length < 15) :
    summarize_and_send_to_group myJid now db summ sendOk cgs group =
      (group, [Effect.getMyJid, Effect.queryMessages,
        Effect.log LogLevel.info "not_enough_messages"]) := by
  have h : (List.insertionSort tsGE
      (db.filter (scheduledQualifies myJid group))).length < 15 := by
    rw [List.length_insertionSort]; omega
  simp [summarize_and_send_to_group, h]
  all_goals exact fun hc => absurd hc (by omega)

/-! ### C2: delivery-failure isolation -/

/-- C2, counterexample to the claim as stated: with generation succeeded,
main-group send succeeded, community group c1 failing its send and community
group c2 reachable, the failing send to c1 is logged but the send to the
remaining destination c2 is never attempted — the single `try` block aborts
the whole loop at the first raising send. -/
theorem C2_claim_counterexample :
    Effect.send "c1@g.us" "sum" none ∈
      (summarize_and_send_to_group "me@s" 200 (List.replicate 15 cMsg)
        (AgentOutcome.ok "sum") (fun d => d != "c1@g.us") [cg1, cg2] cGroup).2 ∧
    Effect.log LogLevel.error "error_sending" ∈
      (summarize_and_send_to_group "me@s" 200 (List.replicate 15 cMsg)
        (AgentOutcome.ok "sum") (fun d => d != "c1@g.us") [cg1, cg2] cGroup).2 ∧
    Effect.send "c2@g.us" "sum" none ∉
      (summarize_and_send_to_group "me@s" 200 (List.replicate 15 cMsg)
        (AgentOutcome.ok "sum") (fun d => d != "c1@g.us") [cg1, cg2] cGroup).2 := by
  decide

/-- C2, amended: when generation succeeds, a send failure is caught and
logged and does not prevent the watermark commit, but it ends the delivery
phase: if the main send fails no community send is attempted, and if the main
send succeeds the community sends attempted are exactly those up to and
including the first failing one. -/
theorem C2_send_abort_policy (myJid : String) (now : Nat) (db : List Message)
    (sendOk : String → Bool) (cgs : List Group) (group : Group) (out : String)
    (h15 : 15 ≤ (db.filter (scheduledQualifies myJid group)).length) :
    Effect.commit now ∈ (summarize_and_send_to_group myJid now db
      (AgentOutcome.ok out) sendOk cgs group).2 ∧
    (sendOk group.group_jid = false →
      (summarize_and_send_to_group myJid now db (AgentOutcome.ok out) sendOk cgs group).2 =
        [Effect.getMyJid, Effect.queryMessages, Effect.modelCall,
         Effect.send group.group_jid out none,
         Effect.log LogLevel.error "error_sending", Effect.commit now]) ∧
    (sendOk group.group_jid = true →
      (summarize_and_send_to_group myJid now db (AgentOutcome.ok out) sendOk cgs group).2 =
        [Effect.getMyJid, Effect.queryMessages, Effect.modelCall,
         Effect.send group.group_jid out none, Effect.fetchCommunityGroups] ++
        ((cgs.takeWhile fun cg => sendOk cg.group_jid) ++
          (cgs.dropWhile fun cg => sendOk cg.group_jid).take 1).map
          (fun cg => Effect.send cg.group_jid out none) ++
        (if (cgs.dropWhile fun cg => sendOk cg.group_jid).isEmpty then []
          else [Effect.log LogLevel.error "error_sending"]) ++
        [Effect.commit now]) ∧
    (sendOk group.group_jid = true →
      (cgs.dropWhile fun cg => sendOk cg.group_jid).isEmpty = false →
      Effect.log LogLevel.error "error_sending" ∈
        (summarize_and_send_to_group myJid now db
          (AgentOutcome.ok out) sendOk cgs group).2) := by
  rw [engine_ok_eq myJid now db sendOk cgs group out h15]
  refine ⟨by simp, ?_, ?_, ?_⟩
  · intro hmain
    simp [sendPhase, hmain]
  · intro hmain
    simp [sendPhase, hmain, (sendSeq_spec sendOk out cgs).1, (sendSeq_spec sendOk out cgs).2]
  · intro hmain hfail
    simp [sendPhase, hmain, (sendSeq_spec sendOk out cgs).2, hfail]

/-- C2, witness: the amended theorem at the fixture inputs in which the send
to community group c1 fails. -/
theorem C2_send_abort_policy_witness :
    Effect.commit 200 ∈
      (summarize_and_send_to_group "me@s" 200 (List.replicate 15 cMsg)
        (AgentOutcome.ok "sum") (fun d => d != "c1@g.us") [cg1, cg2] cGroup).2 ∧
    Effect.log LogLevel.error "error_sending" ∈
      (summarize_and_send_to_group "me@s" 200 (List.replicate 15 cMsg)
        (AgentOutcome.ok "sum") (fun d => d != "c1@g.us") [cg1, cg2] cGroup).2 :=
  ⟨(C2_send_abort_policy "me@s" 200 (List.replicate 15 cMsg)
      (fun d => d != "c1@g.us") [cg1, cg2] cGroup "sum" (by decide)).1,
   (C2_send_abort_policy "me@s" 200 (List.replicate 15 cMsg)
      (fun d => d != "c1@g.us") [cg1, cg2] cGroup "sum" (by decide)).2.2.2
      (by decide) (by decide)⟩

/-- On every generation-failure branch (HTTP error, moderation-classified or
not, and any other exception) the engine leaves the group row unchanged,
attempts no send and no commit, and — when the threshold was met, so the
generation was actually attempted — made the model call and logged. -/
theorem engine_fail_spec (myJid : String) (now : Nat) (db : List Message)
    (summ : AgentOutcome String) (sendOk : String → Bool) (cgs : List Group)
    (group : Group) (hfail : ∀ a, summ ≠ AgentOutcome.ok a) :
    (summarize_and_send_to_group myJid now db summ sendOk cgs group).1 = group ∧
    (∀ d t r, Effect.send d t r ∉
      (summarize_and_send_to_group myJid now db summ sendOk cgs group).2) ∧
    (∀ k, Effect.commit k ∉
      (summarize_and_send_to_group myJid now db summ sendOk cgs group).2) ∧
    (15 ≤ (db.filter (scheduledQualifies myJid group)).length →
      Effect.modelCall ∈
        (summarize_and_send_to_group myJid now db summ sendOk cgs group).2 ∧
      ∃ lvl tag, Effect.log lvl tag ∈
        (summarize_and_send_to_group myJid now db summ sendOk cgs group).2) := by
  by_cases hlt : (db.filter (scheduledQualifies myJid group)).length < 15
  · rw [engine_below_threshold_eq myJid now db summ sendOk cgs group hlt]
    refine ⟨rfl, by simp, by simp, fun h15 => absurd h15 (by omega)⟩
  · cases summ with
    | ok a => exact absurd rfl (hfail a)
    | modelHTTPError body =>
      by_cases hf : isContentFiltered body
      · refine ⟨?_, ?_, ?_, fun _ => ⟨?_, LogLevel.warning, "content_filtered_auto", ?_⟩⟩ <;>
          simp [summarize_and_send_to_group, hlt, hf]
      · refine ⟨?_, ?_, ?_, fun _ => ⟨?_, LogLevel.error, "model_http_error_auto", ?_⟩⟩ <;>
          simp [summarize_and_send_to_group, hlt, hf]
    | otherExc m =>
      refine ⟨?_, ?_, ?_, fun _ => ⟨?_, LogLevel.error, "error_summarizing", ?_⟩⟩ <;>
        simp [summarize_and_send_to_group, hlt]

/-! ### C3: watermark advance and monotonicity -/

/-- C3: the watermark is monotonically non-decreasing across every engine run
(given the clock does not run backwards), and whenever generation succeeds on
an above-threshold window it is set to the current time and committed,
whatever the send outcomes `sendOk` are. -/
theorem C3_watermark_advance (myJid : String) (now : Nat) (db : List Message)
    (summ : AgentOutcome String) (sendOk : String → Bool) (cgs : List Group)
    (group : Group) (hclock : group.last_summary_sync ≤ now) :
    group.last_summary_sync ≤
      (summarize_and_send_to_group myJid now db summ sendOk cgs group).1.last_summary_sync ∧
    (∀ out, summ = AgentOutcome.ok out →
      15 ≤ (db.filter (scheduledQualifies myJid group)).length →
      (summarize_and_send_to_group myJid now db summ sendOk cgs
          group).1.last_summary_sync = now ∧
      Effect.commit now ∈
        (summarize_and_send_to_group myJid now db summ sendOk cgs group).2) := by
  constructor
  · by_cases hlt : (db.filter (scheduledQualifies myJid group)).length < 15
    · rw [engine_below_threshold_eq myJid now db summ sendOk cgs group hlt]
    · cases summ with
      | ok out =>
        rw [engine_ok_eq myJid now db sendOk cgs group out (by omega)]
        simpa using hclock
      | modelHTTPError body =>
        rw [(engine_fail_spec myJid now db (AgentOutcome.modelHTTPError body)
          sendOk cgs group (fun a ha => nomatch ha)).1]
      | otherExc m =>
        rw [(engine_fail_spec myJid now db (AgentOutcome.otherExc m)
          sendOk cgs group (fun a ha => nomatch ha)).1]
  · rintro out rfl h15
    rw [engine_ok_eq myJid now db sendOk cgs group out h15]
    exact ⟨rfl, by simp⟩

/-- C3, witness: fixture run in which every send fails, yet the watermark is
advanced from 50 to 200 and committed. -/
theorem C3_watermark_advance_witness :
    (summarize_and_send_to_group "me@s" 200 (List.replicate 15 cMsg)
      (AgentOutcome.ok "sum") (fun _ => false) [cg1, cg2]
      cGroup).1.last_summary_sync = 200 ∧
    Effect.commit 200 ∈
      (summarize_and_send_to_group "me@s" 200 (List.replicate 15 cMsg)
        (AgentOutcome.ok "sum") (fun _ => false) [cg1, cg2] cGroup).2 :=
  (C3_watermark_advance "me@s" 200 (List.replicate 15 cMsg)
    (AgentOutcome.ok "sum") (fun _ => false) [cg1, cg2] cGroup (by decide)).2
    "sum" rfl (by decide)

/-! ### C4: exhausted generation failure -/

/-- C4: when generation fails on an above-threshold window (content-moderation
classified or not), the engine makes no send to any destination, does not
advance or commit the watermark, leaves the group row unchanged, and logs. -/
theorem C4_generation_failure_no_effects (myJid : String) (now : Nat)
    (db : List Message) (summ : AgentOutcome String) (sendOk : String → Bool)
    (cgs : List Group) (group : Group)
    (h15 : 15 ≤ (db.filter (scheduledQualifies myJid group)).length)
    (hfail : ∀ a, summ ≠ AgentOutcome.ok a) :
    (summarize_and_send_to_group myJid now db summ sendOk cgs group).1 = group ∧
    (∀ d t r, Effect.send d t r ∉
      (summarize_and_send_to_group myJid now db summ sendOk cgs group).2) ∧
    (∀ k, Effect.commit k ∉
      (summarize_and_send_to_group myJid now db summ sendOk cgs group).2) ∧
    Effect.modelCall ∈
      (summarize_and_send_to_group myJid now db summ sendOk cgs group).2 ∧
    (∃ lvl tag, Effect.log lvl tag ∈
      (summarize_and_send_to_group myJid now db summ sendOk cgs group).2) := by
  obtain ⟨h1, h2, h3, h4⟩ :=
    engine_fail_spec myJid now db summ sendOk cgs group hfail
  exact ⟨h1, h2, h3, (h4 h15).1, (h4 h15).2⟩

/-- C4, witness: a moderation-classified generation failure on the fixture
window leaves the group unchanged, with no send and no commit. -/
theorem C4_generation_failure_no_effects_witness :
    (summarize_and_send_to_group "me@s" 200 (List.replicate 15 cMsg)
      (AgentOutcome.modelHTTPError "ResponsibleAIPolicyViolation: blocked")
      (fun _ => true) [cg1, cg2] cGroup).1 = cGroup ∧
    Effect.send "g@g.us" "sum" none ∉
      (summarize_and_send_to_group "me@s" 200 (List.replicate 15 cMsg)
        (AgentOutcome.modelHTTPError "ResponsibleAIPolicyViolation: blocked")
        (fun _ => true) [cg1, cg2] cGroup).2 ∧
    Effect.commit 200 ∉
      (summarize_and_send_to_group "me@s" 200 (List.replicate 15 cMsg)
        (AgentOutcome.modelHTTPError "ResponsibleAIPolicyViolation: blocked")
        (fun _ => true) [cg1, cg2] cGroup).2 ∧
    Effect.modelCall ∈
      (summarize_and_send_to_group "me@s" 200 (List.replicate 15 cMsg)
        (AgentOutcome.modelHTTPError "ResponsibleAIPolicyViolation: blocked")
        (fun _ => true) [cg1, cg2] cGroup).2 :=
  ⟨(C4_generation_failure_no_effects "me@s" 200 (List.replicate 15 cMsg)
      (AgentOutcome.modelHTTPError "ResponsibleAIPolicyViolation: blocked")
      (fun _ => true) [cg1, cg2] cGroup (by decide) (fun a ha => nomatch ha)).1,
   (C4_generation_failure_no_effects "me@s" 200 (List.replicate 15 cMsg)
      (AgentOutcome.modelHTTPError "ResponsibleAIPolicyViolation: blocked")
      (fun _ => true) [cg1, cg2] cGroup (by decide) (fun a ha => nomatch ha)).2.1
      "g@g.us" "sum" none,
   (C4_generation_failure_no_effects "me@s" 200 (List.replicate 15 cMsg)
      (AgentOutcome.modelHTTPError "ResponsibleAIPolicyViolation: blocked")
      (fun _ => true) [cg1, cg2] cGroup (by decide) (fun a ha => nomatch ha)).2.2.1 200,
   (C4_generation_failure_no_effects "me@s" 200 (List.replicate 15 cMsg)
      (AgentOutcome.modelHTTPError "ResponsibleAIPolicyViolation: blocked")
      (fun _ => true) [cg1, cg2] cGroup (by decide) (fun a ha => nomatch ha)).2.2.2.1⟩

/-! ### C5: below-threshold early exit -/

/-- C5, counterexample to the claim as stated: even on a run with zero
qualifying messages the engine has already resolved the assistant identity
with the transport client and run the persistence query — two remote calls —
so it does not perform *zero* remote calls. -/
theorem C5_claim_counterexample :
    (List.filter (scheduledQualifies "me@s" cGroup) []).length < 15 ∧
    Effect.getMyJid ∈
      (summarize_and_send_to_group "me@s" 200 [] (AgentOutcome.ok "sum")
        (fun _ => true) [cg1, cg2] cGroup).2 ∧
    Effect.queryMessages ∈
      (summarize_and_send_to_group "me@s" 200 [] (AgentOutcome.ok "sum")
        (fun _ => true) [cg1, cg2] cGroup).2 := by
  decide

/-- C5, amended: with fewer than 15 qualifying messages the engine performs
no remote call beyond the fetch itself (the transport self-identity lookup
and the persistence query): no model call, no send, no commit, and the group
row — the watermark included — is left unchanged. -/
theorem C5_below_threshold (myJid : String) (now : Nat) (db : List Message)
    (summ : AgentOutcome String) (sendOk : String → Bool) (cgs : List Group)
    (group : Group)
    (hlt : (db.filter (scheduledQualifies myJid group)).length < 15) :
    summarize_and_send_to_group myJid now db summ sendOk cgs group =
      (group, [Effect.getMyJid, Effect.queryMessages,
        Effect.log LogLevel.info "not_enough_messages"]) ∧
    (summarize_and_send_to_group myJid now db summ sendOk cgs group).1 = group ∧
    Effect.modelCall ∉
      (summarize_and_send_to_group myJid now db summ sendOk cgs group).2 ∧
    (∀ d t r, Effect.send d t r ∉
      (summarize_and_send_to_group myJid now db summ sendOk cgs group).2) ∧
    (∀ k, Effect.commit k ∉
      (summarize_and_send_to_group myJid now db summ sendOk cgs group).2) := by
  have he := engine_below_threshold_eq myJid now db summ sendOk cgs group hlt
  rw [he]
  exact ⟨rfl, rfl, by simp, by simp, by simp⟩

/-- C5, witness: the amended theorem at a 14-message fixture window. -/
theorem C5_below_threshold_witness :
    summarize_and_send_to_group "me@s" 200 (List.replicate 14 cMsg)
      (AgentOutcome.ok "sum") (fun _ => true) [cg1, cg2] cGroup =
      (cGroup, [Effect.getMyJid, Effect.queryMessages,
        Effect.log LogLevel.info "not_enough_messages"]) ∧
    Effect.modelCall ∉
      (summarize_and_send_to_group "me@s" 200 (List.replicate 14 cMsg)
        (AgentOutcome.ok "sum") (fun _ => true) [cg1, cg2] cGroup).2 :=
  ⟨(C5_below_threshold "me@s" 200 (List.replicate 14 cMsg)
      (AgentOutcome.ok "sum") (fun _ => true) [cg1, cg2] cGroup (by decide)).1,
   (C5_below_threshold "me@s" 200 (List.replicate 14 cMsg)
      (AgentOutcome.ok "sum") (fun _ => true) [cg1, cg2] cGroup (by decide)).2.2.1⟩

/-! ### C6: fan-out over managed groups -/

/-- C6: the fan-out launches exactly one unit of work per managed group and
only for managed groups; each outcome is the value of `run` on its own group
(exceptions are collected as values, so one unit failing cannot abort a
sibling); and every collected exception is logged at error level. -/
theorem C6_fanout_isolation (run : Group → Except String (Group × List Effect))
    (allGroups : List Group) :
    (summarize_and_send_to_groups run allGroups).1.length =
      (allGroups.filter (fun g => g.managed)).length ∧
    (∀ g ∈ allGroups, g.managed = true →
      run g ∈ (summarize_and_send_to_groups run allGroups).1) ∧
    (∀ r ∈ (summarize_and_send_to_groups run allGroups).1,
      ∃ g ∈ allGroups, g.managed = true ∧ r = run g) ∧
    (∀ e, Except.error e ∈ (summarize_and_send_to_groups run allGroups).1 →
      Effect.log LogLevel.error e ∈ (summarize_and_send_to_groups run allGroups).2) := by
  refine ⟨by simp [summarize_and_send_to_groups], ?_, ?_, ?_⟩
  · intro g hg hm
    simp only [summarize_and_send_to_groups, List.mem_map]
    exact ⟨g, List.mem_filter.mpr ⟨hg, hm⟩, rfl⟩
  · intro r hr
    simp only [summarize_and_send_to_groups, List.mem_map] at hr
    obtain ⟨g, hg, rfl⟩ := hr
    obtain ⟨hg', hm⟩ := List.mem_filter.mp hg
    exact ⟨g, hg', hm, rfl⟩
  · intro e he
    simp only [summarize_and_send_to_groups] at he ⊢
    exact List.mem_filterMap.mpr ⟨Except.error e, he, rfl⟩

/-- Fixture group A for the fan-out witness. -/
def gA : Group :=
  { group_jid := "a@g", group_name := some "A", managed := true,
    last_summary_sync := 0 }

/-- Fixture group B for the fan-out witness; its workflow raises. -/
def gB : Group :=
  { group_jid := "b@g", group_name := some "B", managed := true,
    last_summary_sync := 0 }

/-- Fixture group C for the fan-out witness. -/
def gC : Group :=
  { group_jid := "c@g", group_name := some "C", managed := true,
    last_summary_sync := 0 }

/-- A per-group workflow in which exactly the unit for group B raises. -/
def runBoom : Group → Except String (Group × List Effect) := fun g =>
  if g.group_jid == "b@g" then Except.error "boom" else Except.ok (g, [])

/-- C6, witness: fan-out over [A, B, C] with B raising still contains the
outcomes of A and of C, and the exception of B is logged. -/
theorem C6_fanout_isolation_witness :
    runBoom gA ∈ (summarize_and_send_to_groups runBoom [gA, gB, gC]).1 ∧
    runBoom gC ∈ (summarize_and_send_to_groups runBoom [gA, gB, gC]).1 ∧
    Effect.log LogLevel.error "boom" ∈
      (summarize_and_send_to_groups runBoom [gA, gB, gC]).2 :=
  ⟨(C6_fanout_isolation runBoom [gA, gB, gC]).2.1 gA (by decide) rfl,
   (C6_fanout_isolation runBoom [gA, gB, gC]).2.1 gC (by decide) rfl,
   (C6_fanout_isolation runBoom [gA, gB, gC]).2.2.2 "boom" (by decide)⟩

/-! ### C7: retry policy of the scheduled summarize call -/

/-- The retry loop never makes more attempts than the fuel allows plus the
initial one. -/
theorem retryFrom_count {E A : Type} (f : Nat → Except E A) :
    ∀ (fuel n : Nat), (retryFrom f n fuel).2 ≤ fuel + 1 := by
  intro fuel
  induction fuel with
  | zero => intro n; simp [retryFrom]
  | succ fuel ih =>
    intro n
    cases hf : f n with
    | ok a => simp [retryFrom, hf]
    | error e =>
      have := ih (n + 1)
      simp only [retryFrom, hf]
      omega

/-- A success out of the retry loop comes from one of the attempted calls. -/
theorem retryFrom_ok {E A : Type} (f : Nat → Except E A) :
    ∀ (fuel n : Nat) (a : A), (retryFrom f n fuel).1 = Except.ok a →
      ∃ k, n ≤ k ∧ k ≤ n + fuel ∧ f k = Except.ok a := by
  intro fuel
  induction fuel with
  | zero =>
    intro n a h
    exact ⟨n, le_rfl, by omega, by simpa [retryFrom] using h⟩
  | succ fuel ih =>
    intro n a h
    cases hf : f n with
    | ok b =>
      refine ⟨n, le_rfl, by omega, ?_⟩
      rw [hf]
      simpa [retryFrom, hf] using h
    | error e =>
      simp only [retryFrom, hf] at h
      obtain ⟨k, h1, h2, h3⟩ := ih (n + 1) a h
      exact ⟨k, by omega, by omega, h3⟩

/-- When every allowed attempt fails, the loop returns the outcome of the
last attempt (`reraise=True`) after making all of them. -/
theorem retryFrom_all_fail {E A : Type} (f : Nat → Except E A) :
    ∀ (fuel n : Nat),
      (∀ k, n ≤ k → k ≤ n + fuel → ∃ e, f k = Except.error e) →
      retryFrom f n fuel = (f (n + fuel), fuel + 1) := by
  intro fuel
  induction fuel with
  | zero => intro n _; simp [retryFrom]
  | succ fuel ih =>
    intro n h
    obtain ⟨e, hf⟩ := h n le_rfl (by omega)
    have hrec := ih (n + 1) (fun k hk1 hk2 => h k (by omega) (by omega))
    have harg : n + 1 + fuel = n + (fuel + 1) := by omega
    simp only [retryFrom, hf, hrec, harg]

/-- C7: the retried `summarize` call makes at most 6 attempts; a success is
the outcome of one of attempts 1..6; when all 6 attempts fail the final
failure is re-raised as is after exactly 6 attempts; and the backoff window
before each retry is the exponential `min(2^(n-1), 30)`, bounded between 1
and 30 seconds, with the jittered wait a fraction of it, at most 30. -/
theorem C7_retry_policy {E A : Type} (f : Nat → Except E A) :
    (retrySummarize f).2 ≤ 6 ∧
    (∀ a, (retrySummarize f).1 = Except.ok a →
      ∃ n, 1 ≤ n ∧ n ≤ 6 ∧ f n = Except.ok a) ∧
    ((∀ n, 1 ≤ n → n ≤ 6 → ∃ e, f n = Except.error e) →
      (retrySummarize f).1 = f 6 ∧ (retrySummarize f).2 = 6) ∧
    (∀ n, 1 ≤ n →
      waitRandomExponentialHigh n = min (2 ^ (n - 1)) 30 ∧
      1 ≤ waitRandomExponentialHigh n ∧ waitRandomExponentialHigh n ≤ 30) ∧
    (∀ (n : Nat) (r : ℚ), 0 ≤ r → r ≤ 1 →
      0 ≤ waitRandomExponentialDelay n r ∧
        waitRandomExponentialDelay n r ≤ 30) := by
  refine ⟨?_, ?_, ?_, ?_, ?_⟩
  · have := retryFrom_count f 5 1
    simpa [retrySummarize, stopAfterAttempt] using this
  · intro a h
    have h' : (retryFrom f 1 5).1 = Except.ok a := by
      simpa [retrySummarize, stopAfterAttempt] using h
    obtain ⟨k, h1, h2, h3⟩ := retryFrom_ok f 5 1 a h'
    exact ⟨k, h1, by omega, h3⟩
  · intro h
    have hall : ∀ k, 1 ≤ k → k ≤ 1 + 5 → ∃ e, f k = Except.error e :=
      fun k hk1 hk2 => h k hk1 (by omega)
    have := retryFrom_all_fail f 5 1 hall
    constructor <;> simp [retrySummarize, stopAfterAttempt, this]
  · intro n hn
    have hx : 1 ≤ 2 ^ (n - 1) := Nat.one_le_two_pow
    refine ⟨?_, ?_, ?_⟩ <;> (simp [waitRandomExponentialHigh]; try omega)
  · intro n r h0 h1
    have hnat : waitRandomExponentialHigh n ≤ 30 := by
      have hx : 1 ≤ 2 ^ (n - 1) := Nat.one_le_two_pow
      simp [waitRandomExponentialHigh]
    have hcast : (waitRandomExponentialHigh n : ℚ) ≤ 30 := by
      exact_mod_cast hnat
    have hcast0 : (0 : ℚ) ≤ (waitRandomExponentialHigh n : ℚ) := by positivity
    constructor
    · exact mul_nonneg h0 hcast0
    · calc r * (waitRandomExponentialHigh n : ℚ)
          ≤ 1 * (waitRandomExponentialHigh n : ℚ) :=
            mul_le_mul_of_nonneg_right h1 hcast0
        _ = (waitRandomExponentialHigh n : ℚ) := one_mul _
        _ ≤ 30 := hcast

/-- C7, witness: with every attempt failing, the retried call returns the
final failure after exactly 6 attempts. -/
theorem C7_retry_policy_witness :
    (retrySummarize (fun _ => (Except.error "e" : Except String String))).1 =
      Except.error "e" ∧
    (retrySummarize (fun _ => (Except.error "e" : Except String String))).2 = 6 :=
  (C7_retry_policy (fun _ => (Except.error "e" : Except String String))).2.2.1
    (fun _ _ _ => ⟨"e", rfl⟩)

/-! ### C8: embedding batcher -/

/-- With sufficient fuel, concatenating the chunks gives back the input. -/
theorem chunkedFuel_flatten {α : Type} :
    ∀ (fuel : Nat) (l : List α), l.length ≤ fuel →
      (chunkedFuel fuel l).flatten = l := by
  intro fuel
  induction fuel with
  | zero =>
    intro l h
    cases l with
    | nil => rfl
    | cons x xs => simp at h
  | succ fuel ih =>
    intro l h
    cases l with
    | nil => rfl
    | cons x xs =>
      have hlen : ((x :: xs).drop batchSize).length ≤ fuel := by
        simp only [List.length_drop, List.length_cons]
        have hb : 1 ≤ batchSize := by norm_num [batchSize]
        simp only [List.length_cons] at h
        omega
      simp only [chunkedFuel, List.flatten_cons, ih _ hlen,
        List.take_append_drop]

/-- With sufficient fuel, the number of chunks is the length divided by the
batch size, rounded up. -/
theorem chunkedFuel_length {α : Type} :
    ∀ (fuel : Nat) (l : List α), l.length ≤ fuel →
      (chunkedFuel fuel l).length = (l.length + 99) / 100 := by
  intro fuel
  induction fuel with
  | zero =>
    intro l h
    cases l with
    | nil => norm_num [chunkedFuel]
    | cons x xs => simp at h
  | succ fuel ih =>
    intro l h
    cases l with
    | nil => norm_num [chunkedFuel]
    | cons x xs =>
      have hlen : ((x :: xs).drop batchSize).length ≤ fuel := by
        simp only [List.length_drop, List.length_cons]
        simp only [List.length_cons] at h
        simp only [batchSize]
        omega
      have hrec := ih ((x :: xs).drop batchSize) hlen
      simp only [List.length_drop, List.length_cons, batchSize] at hrec
      simp only [chunkedFuel, batchSize, List.length_cons, hrec,
        List.length_drop]
      omega

/-- Every chunk holds at most `batchSize` texts and is non-empty. -/
theorem chunkedFuel_mem {α : Type} :
    ∀ (fuel : Nat) (l : List α) (c : List α), c ∈ chunkedFuel fuel l →
      c.length ≤ batchSize ∧ c ≠ [] := by
  intro fuel
  induction fuel with
  | zero =>
    intro l c h
    cases l with
    | nil => simp [chunkedFuel] at h
    | cons x xs => simp [chunkedFuel] at h
  | succ fuel ih =>
    intro l c h
    cases l with
    | nil => simp [chunkedFuel] at h
    | cons x xs =>
      simp only [chunkedFuel, List.mem_cons] at h
      rcases h with rfl | h
      · constructor
        · exact List.length_take_le batchSize (x :: xs)
        · have hpos : 0 < (List.take batchSize (x :: xs)).length := by
            rw [List.length_take]
            have hb : 0 < batchSize := by norm_num [batchSize]
            simp only [List.length_cons]
            omega
          exact List.ne_nil_of_length_pos hpos
      · exact ih _ c h

/-- Mapping over the chunks then flattening is flattening then mapping. -/
theorem flatten_map_map {α β : Type} (f : α → β) :
    ∀ L : List (List α), (L.map (List.map f)).flatten = L.flatten.map f := by
  intro L
  induction L with
  | nil => rfl
  | cons c L ih =>
    simp only [List.map_cons, List.flatten_cons, List.map_append, ih]

/-- C8: when the provider returns one vector per input text (modelled by a
per-text function `f`), the batcher returns exactly one vector per input in
input order, issues exactly the ceiling of N/100 provider calls, and every
batch is a non-empty contiguous slice of at most 100 texts whose
concatenation is the input. -/
theorem C8_batching (Vec : Type) (f : String → Vec)
    (create : List String → List Vec) (hc : ∀ b, create b = b.map f)
    (input : List String) :
    (azure_openai_embed_text create input).1 = input.map f ∧
    (azure_openai_embed_text create input).1.length = input.length ∧
    (azure_openai_embed_text create input).2 = (input.length + 99) / 100 ∧
    (∀ c ∈ chunked input, c.length ≤ 100 ∧ c ≠ []) ∧
    (chunked input).flatten = input := by
  have hfl : (chunked input).flatten = input :=
    chunkedFuel_flatten input.length input le_rfl
  have h1 : (azure_openai_embed_text create input).1 = input.map f := by
    have hmap : (chunked input).map create = (chunked input).map (List.map f) :=
      List.map_congr_left (fun b _ => hc b)
    simp only [azure_openai_embed_text, hmap, flatten_map_map, hfl]
  refine ⟨h1, ?_, ?_, ?_, hfl⟩
  · rw [h1, List.length_map]
  · simpa [azure_openai_embed_text, chunked] using
      chunkedFuel_length input.length input le_rfl
  · intro c hcm
    have := chunkedFuel_mem input.length input c hcm
    simpa [batchSize] using this

/-- C8, witness: 101 inputs are answered with 101 vectors over exactly 2
provider calls, and an empty input makes 0 provider calls. -/
theorem C8_batching_witness :
    ((azure_openai_embed_text (fun b => b.map String.length)
      (List.replicate 101 "ab")).1).length = 101 ∧
    (azure_openai_embed_text (fun b => b.map String.length)
      (List.replicate 101 "ab")).2 = 2 ∧
    (azure_openai_embed_text (fun b => b.map String.length)
      ([] : List String)).2 = 0 :=
  ⟨((C8_batching Nat String.length (fun b => b.map String.length)
      (fun _ => rfl) (List.replicate 101 "ab")).2.1).trans (by decide),
   ((C8_batching Nat String.length (fun b => b.map String.length)
      (fun _ => rfl) (List.replicate 101 "ab")).2.2.1).trans (by decide),
   ((C8_batching Nat String.length (fun b => b.map String.length)
      (fun _ => rfl) ([] : List String)).2.2.1).trans rfl⟩

/-! ### C9: on-demand summarization query and empty-history reply -/

/-- C9: the on-demand history holds at most 30 messages, all from the
requesting chat and within the 24-hour window, ordered newest first; and when
no message qualifies the handler sends exactly the fixed no-messages reply,
threaded to the triggering message, and makes no model call. -/
theorem C9_on_demand_summarize (db : List Message) (cutoff : Nat)
    (ar : AgentOutcome String) (trigger : Message) :
    (onDemandQuery db trigger.chat_jid cutoff).length ≤ 30 ∧
    (∀ m ∈ onDemandQuery db trigger.chat_jid cutoff,
      m.chat_jid = trigger.chat_jid ∧ cutoff ≤ m.timestamp) ∧
    List.Sorted tsGE (onDemandQuery db trigger.chat_jid cutoff) ∧
    (db.filter (onDemandQualifies cutoff trigger.chat_jid) = [] →
      Router.summarize db cutoff ar trigger =
        [Effect.queryMessages,
         Effect.send trigger.chat_jid noMessagesReply (some trigger.message_id)] ∧
      Effect.modelCall ∉ Router.summarize db cutoff ar trigger) := by
  refine ⟨List.length_take_le 30 _, ?_, ?_, ?_⟩
  · intro m hm
    have hm' : m ∈ List.insertionSort tsGE
        (db.filter (onDemandQualifies cutoff trigger.chat_jid)) :=
      List.mem_of_mem_take hm
    have hm2 : m ∈ db.filter (onDemandQualifies cutoff trigger.chat_jid) :=
      (List.perm_insertionSort tsGE _).mem_iff.mp hm'
    have hq := (List.mem_filter.mp hm2).2
    simp only [onDemandQualifies, Bool.and_eq_true, beq_iff_eq,
      decide_eq_true_eq] at hq
    exact hq
  · exact List.Pairwise.sublist (List.take_sublist 30 _)
      (List.sorted_insertionSort tsGE _)
  · intro h
    have hq : onDemandQuery db trigger.chat_jid cutoff = [] := by
      simp [onDemandQuery, h]
    constructor
    · simp [Router.summarize, hq]
    · simp [Router.summarize, hq]

/-- C9, witness: an empty message store yields the fixed threaded reply and
no model call. -/
theorem C9_on_demand_summarize_witness :
    Router.summarize [] 0 (AgentOutcome.ok "s") cMsg =
      [Effect.queryMessages,
       Effect.send cMsg.chat_jid noMessagesReply (some cMsg.message_id)] ∧
    Effect.modelCall ∉ Router.summarize [] 0 (AgentOutcome.ok "s") cMsg :=
  (C9_on_demand_summarize [] 0 (AgentOutcome.ok "s") cMsg).2.2.2 rfl

/-! ### C10: sender filtering differs between the two paths -/

/-- C10: the on-demand history filter depends only on the chat identifier
and the timestamp — it is invariant under changing the sender, so messages
sent by the assistant itself qualify and enter the filtered history — while
the scheduled-path filter rejects every message whose sender is the
assistant identity. -/
theorem C10_sender_filtering (cutoff : Nat) (chat myJid s : String)
    (g : Group) (m : Message) (db : List Message) :
    onDemandQualifies cutoff chat { m with sender_jid := s } =
      onDemandQualifies cutoff chat m ∧
    (m.chat_jid = chat → cutoff ≤ m.timestamp →
      onDemandQualifies cutoff chat m = true) ∧
    (m ∈ db → m.chat_jid = chat → cutoff ≤ m.timestamp →
      m ∈ db.filter (onDemandQualifies cutoff chat)) ∧
    (m.sender_jid = myJid → scheduledQualifies myJid g m = false) := by
  refine ⟨rfl, ?_, ?_, ?_⟩
  · intro h1 h2
    simp [onDemandQualifies, h1, h2]
  · intro hm h1 h2
    exact List.mem_filter.mpr ⟨hm, by simp [onDemandQualifies, h1, h2]⟩
  · intro h
    simp [scheduledQualifies, h]

/-- A message sent by the assistant identity itself, inside the window. -/
def botMsg : Message :=
  { message_id := "m2", chat_jid := "chat@g.us", group_jid := "g@g.us",
    sender_jid := "me@s", text := some "bot reply", timestamp := 100 }

/-- C10, witness: the assistant-sent fixture message passes the on-demand
filter and is in the filtered history, but the scheduled filter rejects it. -/
theorem C10_sender_filtering_witness :
    onDemandQualifies 50 "chat@g.us" botMsg = true ∧
    botMsg ∈ List.filter (onDemandQualifies 50 "chat@g.us") [botMsg] ∧
    scheduledQualifies "me@s" cGroup botMsg = false :=
  ⟨(C10_sender_filtering 50 "chat@g.us" "me@s" "x" cGroup botMsg [botMsg]).2.1
      rfl (by decide),
   (C10_sender_filtering 50 "chat@g.us" "me@s" "x" cGroup botMsg [botMsg]).2.2.1
      (by decide) rfl (by decide),
   (C10_sender_filtering 50 "chat@g.us" "me@s" "x" cGroup botMsg [botMsg]).2.2.2
      rfl⟩

end WaLLM

